import Mathlib

/-!
# Verification of the hackforward pipelining engine

A shallow embedding of the core of the `hackforward` DNS forwarder:
the correlation cache (`SenderCache`, file `sendercache.go`), the
per-connection multiplexer (`Pipe`, file `pipe.go`) and the connection
pool (`PipeDriverImpl`, file `pipedriver.go`).

Modelling conventions:

* A DNS message (`dns.Msg`) is reduced to the fields the engine touches:
  its 16-bit `Id` and an opaque payload standing for the rest of the wire
  datum.  Go's `uint16` arithmetic is `Nat` arithmetic modulo `2^16`.
* A Go heap pointer `*Sender` is modelled by an allocation token (`Nat`);
  the cache state carries the allocation counter `senderGen`, so a freshly
  allocated `Sender` is a token never produced before.
* The Go `map[uint16]*Sender` is an association list with map-assignment
  semantics: inserting a key erases any previous binding of that key.
* Goroutine interleavings are resolved by explicit oracles: `Pipe.process`
  takes the outcome of its rendezvous `select` as a parameter, and
  `PipeDriverImpl.process` takes the sequence of per-iteration observations
  (pool empty, or the selected pipe's result together with the response
  sink's result).  Wall-clock time is threaded explicitly in milliseconds.
-/

/-- A DNS message, reduced to the fields used by the engine: the 16-bit
message `Id` (field `Id` of `dns.Msg`) and an opaque `payload` standing
for the question/answer sections. -/
structure Msg where
  id : Nat
  payload : Nat
deriving DecidableEq

/-- The error values the engine produces or inspects:
`writeNotReady` (`writer not ready`), `requestTimeout` (`request
timeouted`), `noPipeAvailable` (`no pipe available`), and opaque transport
or sink errors. -/
inductive DnsError where
  | writeNotReady
  | requestTimeout
  | noPipeAvailable
  | generic (code : Nat)
deriving DecidableEq

/-- Erase every binding of key `k` from an association list; models the
effect of `delete(m, k)` (and the overwrite part of `m[k] = v`) on a Go
map whose bindings are kept as a list. -/
def eraseKey (k : Nat) : List (Nat × Nat) → List (Nat × Nat)
  | [] => []
  | (k', v) :: rest =>
    if k' = k then eraseKey k rest else (k', v) :: eraseKey k rest

/-- State of the per-pipe correlation cache (struct `SenderCache`):
the map `cache : map[uint16]*Sender` (as an association list from
pipe-local id to the allocation token of the stored `*Sender`), the
16-bit counter `msgIDGen`, and the allocation counter `senderGen`
modelling the identity of heap-allocated `Sender` values. -/
structure SenderCache where
  cache : List (Nat × Nat)
  msgIDGen : Nat
  senderGen : Nat
deriving DecidableEq

/-- Result of `SenderCache.add`: the returned pair `(oldMsgId, s)` plus
the updated cache and the updated (mutated-in-place) message. -/
structure AddResult where
  oldMsgId : Nat
  sender : Nat
  cache : SenderCache
  msg : Msg
deriving DecidableEq

/-- Result of `SenderCache.getAndRemove`: the returned `*Sender` (or
`none` for Go's `nil`) plus the updated cache. -/
structure TakeResult where
  sender : Option Nat
  cache : SenderCache
deriving DecidableEq

/-- `func (c *SenderCache) add(msg *dns.Msg) (uint16, *Sender)`:
captures `msg.Id`, increments the 16-bit `msgIDGen` (wrapping modulo
`2^16`), overwrites `msg.Id` with the new counter value, allocates a
fresh `Sender`, stores it at the new key (`c.cache[msg.Id] = s`,
overwriting any previous binding) and returns the old id and the new
sender. -/
def SenderCache.add (c : SenderCache) (msg : Msg) : AddResult :=
  let oldMsgId := msg.id
  let newGen := (c.msgIDGen + 1) % 65536
  let s := c.senderGen
  { oldMsgId := oldMsgId
    sender := s
    cache :=
      { cache := (newGen, s) :: eraseKey newGen c.cache
        msgIDGen := newGen
        senderGen := c.senderGen + 1 }
    msg := { msg with id := newGen } }

/-- `func (c *SenderCache) getAndRemove(id uint16) *Sender`: looks the
id up in the map; if absent returns `nil` leaving the cache unchanged,
else deletes the binding and returns the stored sender. -/
def SenderCache.getAndRemove (c : SenderCache) (id : Nat) : TakeResult :=
  match c.cache.lookup id with
  | none => { sender := none, cache := c }
  | some s =>
    { sender := some s
      cache := { c with cache := eraseKey id c.cache } }

theorem lookup_eraseKey_ne (k id : Nat) (l : List (Nat × Nat)) (h : k ≠ id) :
    (eraseKey id l).lookup k = l.lookup k := by
  induction l with
  | nil => rfl
  | cons hd tl ih =>
    obtain ⟨k', v⟩ := hd
    by_cases hk : k' = id
    · subst hk
      simp only [eraseKey, if_pos rfl]
      have : (k == k') = false := by
        simp [beq_eq_false_iff_ne]
        exact h
      simp [List.lookup, this, ih]
    · simp only [eraseKey, if_neg hk, List.lookup]
      by_cases hkk : k = k'
      · subst hkk; simp
      · have : (k == k') = false := by
          simp [beq_eq_false_iff_ne]
          exact hkk
        simp [this, ih]

theorem lookup_eraseKey_self (id : Nat) (l : List (Nat × Nat)) :
    (eraseKey id l).lookup id = none := by
  induction l with
  | nil => rfl
  | cons hd tl ih =>
    obtain ⟨k', v⟩ := hd
    by_cases hk : k' = id
    · simpa [eraseKey, hk] using ih
    · have : (id == k') = false := by
        simp [beq_eq_false_iff_ne]
        exact fun h => hk h.symm
      simp [eraseKey, hk, List.lookup, this, ih]

theorem filter_eraseKey (id : Nat) (l : List (Nat × Nat)) :
    (eraseKey id l).filter (fun e => e.1 == id) = [] := by
  induction l with
  | nil => rfl
  | cons hd tl ih =>
    obtain ⟨k', v⟩ := hd
    by_cases hk : k' = id
    · simpa [eraseKey, hk] using ih
    · have : (k' == id) = false := by
        simp [beq_eq_false_iff_ne]
        exact hk
      simp [eraseKey, hk, List.filter, this, ih]

theorem getAndRemove_lookup_ne (c : SenderCache) (id k : Nat) (hk : k ≠ id) :
    (c.getAndRemove id).cache.cache.lookup k = c.cache.lookup k := by
  unfold SenderCache.getAndRemove
  cases h : c.cache.lookup id with
  | none => rfl
  | some s => simpa using lookup_eraseKey_ne k id c.cache hk

theorem getAndRemove_found (c : SenderCache) (id s : Nat)
    (h : c.cache.lookup id = some s) :
    (c.getAndRemove id).sender = some s ∧
    (c.getAndRemove id).cache.cache.lookup id = none := by
  unfold SenderCache.getAndRemove
  rw [h]
  exact ⟨rfl, by simpa using lookup_eraseKey_self id c.cache⟩

/-- C9: `SenderCache.add(msg)` captures `msg`'s current ID as the
returned original id, steps the 16-bit `id_gen` counter wrapping modulo
`2^16`, overwrites `msg`'s ID with the new counter value, inserts a
fresh sender (one never allocated before, as witnessed by the allocation
counter) at the new key — after the insertion the only binding of that
key is the new sender, so a previous in-flight sender stored there can no
longer be found — and returns the original id together with the new
sender. -/
theorem senderCache_add_spec (c : SenderCache) (msg : Msg) :
    (c.add msg).oldMsgId = msg.id ∧
    (c.add msg).cache.msgIDGen = (c.msgIDGen + 1) % 65536 ∧
    (c.add msg).msg.id = (c.add msg).cache.msgIDGen ∧
    (c.add msg).sender = c.senderGen ∧
    (c.add msg).cache.senderGen = c.senderGen + 1 ∧
    (c.add msg).cache.cache.lookup (c.add msg).msg.id = some (c.add msg).sender ∧
    (c.add msg).cache.cache.filter (fun e => e.1 == (c.add msg).msg.id) =
      [((c.add msg).msg.id, (c.add msg).sender)] := by
  refine ⟨rfl, rfl, rfl, rfl, rfl, ?_, ?_⟩
  · simp [SenderCache.add, List.lookup]
  · simp only [SenderCache.add, List.filter]
    simp [filter_eraseKey]

/-- C10 (frame): `getAndRemove id` leaves the binding of every key other
than `id` and the `id_gen` counter unchanged, removes the binding at `id`
when present and returns `none` leaving the cache intact otherwise;
`add` leaves the binding of every key other than the newly generated id
unchanged. -/
theorem senderCache_frame (c : SenderCache) (id : Nat) (msg : Msg) :
    (∀ k, k ≠ id →
      (c.getAndRemove id).cache.cache.lookup k = c.cache.lookup k) ∧
    (c.getAndRemove id).cache.msgIDGen = c.msgIDGen ∧
    (c.cache.lookup id = none →
      (c.getAndRemove id).sender = none ∧ (c.getAndRemove id).cache = c) ∧
    (∀ s, c.cache.lookup id = some s →
      (c.getAndRemove id).sender = some s ∧
      (c.getAndRemove id).cache.cache.lookup id = none) ∧
    (∀ k, k ≠ (c.add msg).msg.id →
      (c.add msg).cache.cache.lookup k = c.cache.lookup k) := by
  refine ⟨?_, ?_, ?_, ?_, ?_⟩
  · intro k hk
    exact getAndRemove_lookup_ne c id k hk
  · unfold SenderCache.getAndRemove
    cases h : c.cache.lookup id <;> rfl
  · intro h
    unfold SenderCache.getAndRemove
    rw [h]
    exact ⟨rfl, rfl⟩
  · intro s h
    exact getAndRemove_found c id s h
  · intro k hk
    have hk' : k ≠ (c.msgIDGen + 1) % 65536 := hk
    simp only [SenderCache.add, List.lookup]
    have : (k == (c.msgIDGen + 1) % 65536) = false := by
      simp [beq_eq_false_iff_ne]
      exact hk'
    simp [this]
    exact lookup_eraseKey_ne k _ c.cache hk'

/-- Witness for `senderCache_frame` at a concrete cache. -/
theorem senderCache_frame_witness :
    (({ cache := [(1, 10), (2, 20)], msgIDGen := 7, senderGen := 3 } :
        SenderCache).getAndRemove 1).cache.cache.lookup 2 = some 20 ∧
    (({ cache := [(1, 10), (2, 20)], msgIDGen := 7, senderGen := 3 } :
        SenderCache).getAndRemove 1).sender = some 10 :=
  ⟨(senderCache_frame { cache := [(1, 10), (2, 20)], msgIDGen := 7, senderGen := 3 }
      1 { id := 5, payload := 0 }).1 2 (by decide),
   ((senderCache_frame { cache := [(1, 10), (2, 20)], msgIDGen := 7, senderGen := 3 }
      1 { id := 5, payload := 0 }).2.2.2.1 10 (by decide)).1⟩

/-- The per-pipe state touched by `Pipe.process` and the writer-failure
path: the lock-protected `writeReady` flag and the correlation `cache`.
The connection, channels and timeouts of the Go struct are concurrency
machinery resolved by the oracles below. -/
structure Pipe where
  writeReady : Bool
  cache : SenderCache
deriving DecidableEq

/-- Oracle for the rendezvous `select` in `Pipe.process`: either a
response arrives on `sender.responseChan`, or an error is delivered on
`sender.errChan`, or the `reqTimeout` timer fires first. -/
inductive SelectOutcome where
  | response (resp : Msg)
  | errDelivered (e : DnsError)
  | timeout
deriving DecidableEq

/-- Result of `Pipe.process`: the returned `(*dns.Msg, error)` pair plus
the final pipe state and the final (mutated-in-place) request message. -/
structure ProcessResult where
  resp : Option Msg
  err : Option DnsError
  pipe : Pipe
  msgOut : Msg
deriving DecidableEq

/-- `func (p *Pipe) process(msg *dns.Msg) (*dns.Msg, error)`: if the
write-ready flag is unset, return `writeNotReady` at once; otherwise
admit the request through `cache.add`, queue it, and race the sender's
channels against the request timeout.  On a response: restore the
original id on both `msg` and the response and return the response.  On
a delivered error: restore `msg`'s id and return the error.  On timeout:
remove the sender at the remapped id and return `requestTimeout` (the
source does not restore `msg.Id` on this path). -/
def Pipe.process (p : Pipe) (msg : Msg) (oc : SelectOutcome) : ProcessResult :=
  if !p.writeReady then
    { resp := none, err := some DnsError.writeNotReady, pipe := p, msgOut := msg }
  else
    let r := p.cache.add msg
    match oc with
    | SelectOutcome.response resp =>
      { resp := some { resp with id := r.oldMsgId }
        err := none
        pipe := { p with cache := r.cache }
        msgOut := { r.msg with id := r.oldMsgId } }
    | SelectOutcome.errDelivered e =>
      { resp := none
        err := some e
        pipe := { p with cache := r.cache }
        msgOut := { r.msg with id := r.oldMsgId } }
    | SelectOutcome.timeout =>
      let t := r.cache.getAndRemove r.msg.id
      { resp := none
        err := some DnsError.requestTimeout
        pipe := { p with cache := t.cache }
        msgOut := r.msg }

/-- C1: whenever `Pipe.process` returns a response (success), the
returned response carries the caller's original message id, even though
the message travelled under a remapped pipe-local id. -/
theorem pipe_process_response_id (p : Pipe) (msg : Msg) (oc : SelectOutcome)
    (r : Msg) (h : (p.process msg oc).resp = some r) :
    r.id = msg.id := by
  unfold Pipe.process at h
  by_cases hw : p.writeReady
  · simp only [hw, Bool.not_true, Bool.false_eq_true, if_neg] at h
    cases oc with
    | response resp =>
      simp only at h
      cases h
      rfl
    | errDelivered e => simp at h
    | timeout => simp at h
  · simp [hw] at h

/-- Witness for `pipe_process_response_id` at a concrete pipe. -/
theorem pipe_process_response_id_witness :
    (({ writeReady := true,
        cache := { cache := [], msgIDGen := 0, senderGen := 0 } } : Pipe).process
      { id := 5, payload := 0 }
      (SelectOutcome.response { id := 1, payload := 7 })).resp =
      some { id := 5, payload := 7 } ∧
    (5 : Nat) = 5 :=
  ⟨by decide,
   pipe_process_response_id
     { writeReady := true, cache := { cache := [], msgIDGen := 0, senderGen := 0 } }
     { id := 5, payload := 0 }
     (SelectOutcome.response { id := 1, payload := 7 })
     { id := 5, payload := 7 } (by decide)⟩

/-- C2 counterexample: on the request-timeout exit path `Pipe.process`
does not restore the request message's id; the caller's message keeps
the remapped pipe-local id (here `1` instead of the original `5`). -/
theorem pipe_process_timeout_no_restore_cex :
    (({ writeReady := true,
        cache := { cache := [], msgIDGen := 0, senderGen := 0 } } : Pipe).process
      { id := 5, payload := 0 } SelectOutcome.timeout).msgOut.id = 1 ∧
    (({ writeReady := true,
        cache := { cache := [], msgIDGen := 0, senderGen := 0 } } : Pipe).process
      { id := 5, payload := 0 } SelectOutcome.timeout).msgOut.id ≠ 5 := by
  decide

/-- C2 amended: on the success exit path, the error-channel exit path
and the write-not-ready rejection path, the request message's id field
equals the caller's original value when `process` returns; on the
request-timeout path the message keeps the remapped pipe-local id. -/
theorem pipe_process_restores_id (p : Pipe) (msg : Msg) (oc : SelectOutcome)
    (h : p.writeReady = false ∨ oc ≠ SelectOutcome.timeout) :
    (p.process msg oc).msgOut.id = msg.id := by
  unfold Pipe.process
  by_cases hw : p.writeReady
  · simp only [hw, Bool.not_true, Bool.false_eq_true, if_neg]
    cases oc with
    | response resp => rfl
    | errDelivered e => rfl
    | timeout =>
      rcases h with h | h
      · rw [hw] at h; cases h
      · cases h rfl
  · simp [hw]

/-- Witness for `pipe_process_restores_id` on the error-channel path. -/
theorem pipe_process_restores_id_witness :
    (({ writeReady := true,
        cache := { cache := [], msgIDGen := 0, senderGen := 0 } } : Pipe).process
      { id := 5, payload := 0 }
      (SelectOutcome.errDelivered DnsError.writeNotReady)).msgOut.id = 5 :=
  pipe_process_restores_id
    { writeReady := true, cache := { cache := [], msgIDGen := 0, senderGen := 0 } }
    { id := 5, payload := 0 }
    (SelectOutcome.errDelivered DnsError.writeNotReady)
    (Or.inr (by decide))

/-- C4: with the write-ready flag unset, `Pipe.process` returns the
`writeNotReady` error immediately and changes nothing: no response, the
pipe state (hence the correlation cache, its map and its `id_gen`
counter) is returned unchanged, and the request message is returned with
its id unmodified. -/
theorem pipe_process_not_ready (p : Pipe) (msg : Msg) (oc : SelectOutcome)
    (h : p.writeReady = false) :
    p.process msg oc =
      { resp := none, err := some DnsError.writeNotReady, pipe := p, msgOut := msg } := by
  unfold Pipe.process
  simp [h]

/-- Witness for `pipe_process_not_ready` at a concrete pipe. -/
theorem pipe_process_not_ready_witness :
    ({ writeReady := false,
       cache := { cache := [(3, 30)], msgIDGen := 9, senderGen := 4 } } : Pipe).process
      { id := 5, payload := 0 } SelectOutcome.timeout =
      { resp := none
        err := some DnsError.writeNotReady
        pipe := { writeReady := false,
                  cache := { cache := [(3, 30)], msgIDGen := 9, senderGen := 4 } }
        msgOut := { id := 5, payload := 0 } } :=
  pipe_process_not_ready
    { writeReady := false, cache := { cache := [(3, 30)], msgIDGen := 9, senderGen := 4 } }
    { id := 5, payload := 0 } SelectOutcome.timeout rfl

/-- A delivery of an error on a Sender's error channel: which sender
(by allocation token) received which error. -/
structure ErrDelivery where
  sender : Nat
  err : DnsError
deriving DecidableEq

/-- `func (p *Pipe) resurrectReqs()`: drain the outbound queue (its
still-queued messages, in order); for each, remove its Sender from the
cache and, when one was found, deliver `writeNotReady` on its error
channel.  Returns the final cache and the deliveries in the order they
happen. -/
def Pipe.resurrectReqs (cache : SenderCache) :
    List Msg → SenderCache × List ErrDelivery
  | [] => (cache, [])
  | req :: rest =>
    let t := cache.getAndRemove req.id
    match t.sender with
    | some s =>
      let r := Pipe.resurrectReqs t.cache rest
      (r.1, { sender := s, err := DnsError.writeNotReady } :: r.2)
    | none => Pipe.resurrectReqs t.cache rest

/-- `func (p *Pipe) closeWriteLoop(req *dns.Msg)`: on a writer failure,
clear the write-ready flag (the driver removal, the done signals and the
finalize timer are concurrency machinery outside this model), deliver
`writeNotReady` to the failing request's Sender when it is still cached,
and only then resurrect the rest of the outbound queue. -/
def Pipe.closeWriteLoop (p : Pipe) (req : Msg) (queue : List Msg) :
    Pipe × List ErrDelivery :=
  let t := p.cache.getAndRemove req.id
  let ev0 := match t.sender with
    | some s => [{ sender := s, err := DnsError.writeNotReady } ]
    | none => []
  let r := Pipe.resurrectReqs t.cache queue
  ({ writeReady := false, cache := r.1 }, ev0 ++ r.2)

theorem resurrectReqs_all (queue : List Msg) (f : Msg → Nat) :
    ∀ cache : SenderCache, (queue.map Msg.id).Nodup →
    (∀ m ∈ queue, cache.cache.lookup m.id = some (f m)) →
    (Pipe.resurrectReqs cache queue).2 =
      queue.map (fun m => { sender := f m, err := DnsError.writeNotReady }) := by
  induction queue with
  | nil => intro cache _ _; rfl
  | cons hd tl ih =>
    intro cache hnd hin
    have hhd : cache.cache.lookup hd.id = some (f hd) :=
      hin hd (List.mem_cons_self hd tl)
    simp only [List.map_cons, List.nodup_cons] at hnd
    have htl : ∀ m ∈ tl,
        ((cache.getAndRemove hd.id).cache).cache.lookup m.id = some (f m) := by
      intro m hm
      have hne : m.id ≠ hd.id := by
        intro h
        exact hnd.1 (h ▸ List.mem_map_of_mem Msg.id hm)
      calc ((cache.getAndRemove hd.id).cache).cache.lookup m.id
          = cache.cache.lookup m.id :=
            getAndRemove_lookup_ne cache hd.id m.id hne
        _ = some (f m) := hin m (List.mem_cons_of_mem hd hm)
    simp only [Pipe.resurrectReqs]
    have ht : (cache.getAndRemove hd.id).sender = some (f hd) :=
      (getAndRemove_found cache hd.id (f hd) hhd).1
    rw [ht]
    simp only [List.map_cons]
    rw [ih (cache.getAndRemove hd.id).cache hnd.2 htl]

/-- C8: when the writer loop fails on a queued request whose Sender (and
those of all still-queued messages, all with distinct pipe-local ids) is
still in the cache, `closeWriteLoop` delivers `writeNotReady` to the
failing request's Sender first and then, in queue order, to the Sender
of every message still queued. -/
theorem closeWriteLoop_delivery (p : Pipe) (req : Msg) (queue : List Msg)
    (f : Msg → Nat)
    (hnd : ((req :: queue).map Msg.id).Nodup)
    (hin : ∀ m ∈ req :: queue, p.cache.cache.lookup m.id = some (f m)) :
    (p.closeWriteLoop req queue).2 =
      { sender := f req, err := DnsError.writeNotReady } ::
        queue.map (fun m => { sender := f m, err := DnsError.writeNotReady }) ∧
    (p.closeWriteLoop req queue).1.writeReady = false := by
  constructor
  · have hreq : p.cache.cache.lookup req.id = some (f req) :=
      hin req (List.mem_cons_self req queue)
    simp only [List.map_cons, List.nodup_cons] at hnd
    have ht : (p.cache.getAndRemove req.id).sender = some (f req) :=
      (getAndRemove_found p.cache req.id (f req) hreq).1
    have hq : ∀ m ∈ queue,
        ((p.cache.getAndRemove req.id).cache).cache.lookup m.id = some (f m) := by
      intro m hm
      have hne : m.id ≠ req.id := by
        intro h
        exact hnd.1 (h ▸ List.mem_map_of_mem Msg.id hm)
      calc ((p.cache.getAndRemove req.id).cache).cache.lookup m.id
          = p.cache.cache.lookup m.id :=
            getAndRemove_lookup_ne p.cache req.id m.id hne
        _ = some (f m) := hin m (List.mem_cons_of_mem req hm)
    simp only [Pipe.closeWriteLoop]
    rw [ht]
    rw [resurrectReqs_all queue f (p.cache.getAndRemove req.id).cache hnd.2 hq]
    rfl
  · rfl

/-- Witness for `closeWriteLoop_delivery` at a concrete cache and queue. -/
theorem closeWriteLoop_delivery_witness :
    (({ writeReady := true,
        cache := { cache := [(1, 10), (2, 20), (3, 30)], msgIDGen := 3, senderGen := 9 } } :
          Pipe).closeWriteLoop
      { id := 1, payload := 0 }
      [{ id := 2, payload := 0 }, { id := 3, payload := 0 }]).2 =
      [{ sender := 10, err := DnsError.writeNotReady },
       { sender := 20, err := DnsError.writeNotReady },
       { sender := 30, err := DnsError.writeNotReady }] :=
  (closeWriteLoop_delivery
    { writeReady := true,
      cache := { cache := [(1, 10), (2, 20), (3, 30)], msgIDGen := 3, senderGen := 9 } }
    { id := 1, payload := 0 }
    [{ id := 2, payload := 0 }, { id := 3, payload := 0 }]
    (fun m => 10 * m.id)
    (by decide)
    (by decide)).1

/-- `PRIMARY_PIPES_MAX` from `pipedriver.go`. -/
def PRIMARY_PIPES_MAX : Int := 50

/-- `SECONDARY_PIPES_MAX` from `pipedriver.go`. -/
def SECONDARY_PIPES_MAX : Int := 50

/-- The driver state touched by the pool-management operations (struct
`PipeDriverImpl`): the Ready pool `pipes` (each pipe reduced to its
`primary` class flag), the two static limits and the two loading
counters (Go `int`s, hence `Int`). -/
structure DriverState where
  primaryLimit : Int
  secondaryLimit : Int
  pipes : List Bool
  primaryLoading : Int
  secondaryLoading : Int
deriving DecidableEq

/-- `func NewDriver(upstreams []ConnConfig) *PipeDriverImpl`: empty pool,
zero loading counters, limits from the two constants. -/
def NewDriver : DriverState :=
  { primaryLimit := PRIMARY_PIPES_MAX
    secondaryLimit := SECONDARY_PIPES_MAX
    pipes := []
    primaryLoading := 0
    secondaryLoading := 0 }

/-- `func (pd *PipeDriverImpl) countPipes() (primary int, secondary int)`:
counts the Ready pipes of each class. -/
def PipeDriverImpl.countPipes (st : DriverState) : Nat × Nat :=
  (st.pipes.count true, st.pipes.count false)

/-- `func (pd *PipeDriverImpl) loadPipes()`: under the loading lock, count
the Ready pipes by class; if there is no Ready primary, run the primary
spawn loop `primaryLimit - primaryLoading` times and the secondary spawn
loop `secondaryLimit - secondary - secondaryLoading` times, else run only
the primary spawn loop `primaryLimit - primary - primaryLoading` times
(a `for i := 0; i < n; i++` loop runs `max 0 n` times); each loop adds
its iteration count to its class's loading counter.  Returns the new
state together with the number of primary and secondary pipes spawned. -/
def PipeDriverImpl.loadPipes (st : DriverState) : DriverState × Nat × Nat :=
  let c := PipeDriverImpl.countPipes st
  if c.1 = 0 then
    let spawnedP := (st.primaryLimit - st.primaryLoading).toNat
    let spawnedS := (st.secondaryLimit - (c.2 : Int) - st.secondaryLoading).toNat
    ({ st with
        primaryLoading := st.primaryLoading + spawnedP
        secondaryLoading := st.secondaryLoading + spawnedS },
     spawnedP, spawnedS)
  else
    let spawnedP := (st.primaryLimit - (c.1 : Int) - st.primaryLoading).toNat
    ({ st with primaryLoading := st.primaryLoading + spawnedP }, spawnedP, 0)

/-- `func (pd *PipeDriverImpl) pipeReady(pipe *Pipe)`: append the pipe to
the Ready pool and decrement its class's loading counter. -/
def PipeDriverImpl.pipeReady (st : DriverState) (primary : Bool) : DriverState :=
  { st with
      pipes := st.pipes ++ [primary]
      primaryLoading := if primary then st.primaryLoading - 1 else st.primaryLoading
      secondaryLoading := if primary then st.secondaryLoading else st.secondaryLoading - 1 }

/-- `func (pd *PipeDriverImpl) removePipe(pipe *Pipe)`: remove the pipe
found at some position in the pool, or do nothing when it is absent
(`List.eraseIdx` with an out-of-range index is the identity). -/
def PipeDriverImpl.removePipe (st : DriverState) (i : Nat) : DriverState :=
  { st with pipes := st.pipes.eraseIdx i }

/-- One driver-state transition: the pool-management operations.
`pipeInitFailed` spawns a replacement pipe of the same class without
touching the pool or the counters, so it leaves this state unchanged. -/
inductive DriverStep : DriverState → DriverState → Prop where
  | loadPipes (st : DriverState) : DriverStep st (PipeDriverImpl.loadPipes st).1
  | pipeReady (st : DriverState) (primary : Bool) :
      DriverStep st (PipeDriverImpl.pipeReady st primary)
  | pipeInitFailed (st : DriverState) : DriverStep st st
  | removePipe (st : DriverState) (i : Nat) :
      DriverStep st (PipeDriverImpl.removePipe st i)

/-- Driver states reachable from the freshly constructed driver. -/
inductive DriverReachable : DriverState → Prop where
  | init : DriverReachable NewDriver
  | step {s t : DriverState} : DriverReachable s → DriverStep s t → DriverReachable t

/-- The per-class admission invariant: Ready pipes of the class plus the
class's loading counter never exceed the class's limit. -/
def driverInv (st : DriverState) : Prop :=
  (st.pipes.count true : Int) + st.primaryLoading ≤ st.primaryLimit ∧
  (st.pipes.count false : Int) + st.secondaryLoading ≤ st.secondaryLimit

theorem driverInv_step {s t : DriverState} (h : driverInv s) (hst : DriverStep s t) :
    driverInv t := by
  obtain ⟨hp, hs⟩ := h
  cases hst with
  | loadPipes =>
    simp only [driverInv, PipeDriverImpl.loadPipes, PipeDriverImpl.countPipes]
    by_cases hc : List.count true s.pipes = 0
    · rw [if_pos hc]
      dsimp only
      refine ⟨?_, ?_⟩ <;> omega
    · rw [if_neg hc]
      dsimp only
      refine ⟨?_, ?_⟩ <;> omega
  | pipeReady primary =>
    simp only [driverInv, PipeDriverImpl.pipeReady, List.count_append]
    cases primary <;> simp <;> omega
  | pipeInitFailed => exact ⟨hp, hs⟩
  | removePipe i =>
    have h1 : List.Sublist (s.pipes.eraseIdx i) s.pipes := List.eraseIdx_sublist s.pipes i
    have ht := h1.count_le true
    have hf := h1.count_le false
    simp only [driverInv, PipeDriverImpl.removePipe]
    refine ⟨?_, ?_⟩ <;> omega

/-- C7: in every driver state reachable from the freshly constructed
driver by `loadPipes`, `pipeReady`, `pipeInitFailed` and `removePipe`,
for each pipe class the number of Ready pipes of that class plus the
class's loading counter is at most the class's limit. -/
theorem driver_pool_invariant (st : DriverState) (h : DriverReachable st) :
    driverInv st := by
  induction h with
  | init =>
    constructor <;> simp [NewDriver, PRIMARY_PIPES_MAX, SECONDARY_PIPES_MAX]
  | step _ hstep ih => exact driverInv_step ih hstep

/-- Witness for `driver_pool_invariant` one `loadPipes` step after
construction. -/
theorem driver_pool_invariant_witness :
    driverInv (PipeDriverImpl.loadPipes NewDriver).1 :=
  driver_pool_invariant (PipeDriverImpl.loadPipes NewDriver).1
    (DriverReachable.step DriverReachable.init (DriverStep.loadPipes NewDriver))

/-- C6: under the pool invariant, `loadPipes` with no Ready primary pipe
spawns exactly `primary_limit - primary_loading` primary pipes and
exactly `secondary_limit - secondary - secondary_loading` secondary
pipes; with at least one Ready primary pipe it spawns exactly
`primary_limit - primary - primary_loading` primary pipes and no
secondary pipes (leaving the secondary loading counter untouched); and
in both cases each loading counter grows by exactly the number of pipes
of its class spawned. -/
theorem loadPipes_spawn_counts (st : DriverState)
    (hp : (st.pipes.count true : Int) + st.primaryLoading ≤ st.primaryLimit)
    (hs : (st.pipes.count false : Int) + st.secondaryLoading ≤ st.secondaryLimit) :
    (st.pipes.count true = 0 →
      ((PipeDriverImpl.loadPipes st).2.1 : Int) = st.primaryLimit - st.primaryLoading ∧
      ((PipeDriverImpl.loadPipes st).2.2 : Int) =
        st.secondaryLimit - (st.pipes.count false : Int) - st.secondaryLoading) ∧
    (st.pipes.count true ≠ 0 →
      ((PipeDriverImpl.loadPipes st).2.1 : Int) =
        st.primaryLimit - (st.pipes.count true : Int) - st.primaryLoading ∧
      (PipeDriverImpl.loadPipes st).2.2 = 0 ∧
      (PipeDriverImpl.loadPipes st).1.secondaryLoading = st.secondaryLoading) ∧
    (PipeDriverImpl.loadPipes st).1.primaryLoading =
      st.primaryLoading + ((PipeDriverImpl.loadPipes st).2.1 : Int) ∧
    (PipeDriverImpl.loadPipes st).1.secondaryLoading =
      st.secondaryLoading + ((PipeDriverImpl.loadPipes st).2.2 : Int) := by
  simp only [PipeDriverImpl.loadPipes, PipeDriverImpl.countPipes]
  by_cases hc : List.count true st.pipes = 0
  · rw [if_pos hc]
    dsimp only
    refine ⟨fun _ => ⟨?_, ?_⟩, fun h => absurd hc h, ?_, ?_⟩ <;> omega
  · rw [if_neg hc]
    dsimp only
    refine ⟨fun h => absurd h hc, fun _ => ⟨?_, ?_, ?_⟩, ?_, ?_⟩ <;> omega

/-- Witness for `loadPipes_spawn_counts`: a state with two Ready primary
pipes, one Ready secondary pipe and some loading in progress. -/
theorem loadPipes_spawn_counts_witness :
    ((PipeDriverImpl.loadPipes
      { primaryLimit := 50, secondaryLimit := 50,
        pipes := [true, false, true], primaryLoading := 3,
        secondaryLoading := 4 }).2.1 : Int) = 50 - 2 - 3 ∧
    (PipeDriverImpl.loadPipes
      { primaryLimit := 50, secondaryLimit := 50,
        pipes := [true, false, true], primaryLoading := 3,
        secondaryLoading := 4 }).2.2 = 0 :=
  ⟨((loadPipes_spawn_counts
      { primaryLimit := 50, secondaryLimit := 50,
        pipes := [true, false, true], primaryLoading := 3, secondaryLoading := 4 }
      (by decide) (by decide)).2.1 (by decide)).1,
   ((loadPipes_spawn_counts
      { primaryLimit := 50, secondaryLimit := 50,
        pipes := [true, false, true], primaryLoading := 3, secondaryLoading := 4 }
      (by decide) (by decide)).2.1 (by decide)).2.1⟩

/-- `dns.RcodeSuccess`. -/
def RcodeSuccess : Nat := 0

/-- `dns.RcodeServerFailure`. -/
def RcodeServerFailure : Nat := 2

/-- Oracle for one iteration of the admission loop of
`PipeDriverImpl.process`: either no pipe was selected (the pool was
empty; `loadPipes` was invoked), or a pipe was selected and
`pipe.process` returned a result, and — when that result is a response —
the response sink's write returned `sinkErr`.  `dt` is the time in
milliseconds spent in the iteration body before the deadline check
(respectively before the next iteration). -/
inductive DriverEvent where
  | noPipe (dt : Nat)
  | pipeResult (dt : Nat) (r : Except DnsError Msg) (sinkErr : Option DnsError)

/-- The admission loop of `func (pd *PipeDriverImpl) process`: on an
empty pool, check the deadline — retry after a 100 ms sleep while
`now < deadline`, else return `(ServerFailure, "no pipe available")`.
On a pipe result: a non-`writeNotReady` error returns
`(ServerFailure, err)`; a response is written to the sink, returning
`(ServerFailure, err)` when that write fails and `(Success, nil)`
otherwise; `writeNotReady` retries.  `none` means the oracle ended while
the loop was still running. -/
def processLoop (deadline : Nat) : Nat → List DriverEvent → Option (Nat × Option DnsError)
  | _, [] => none
  | now, DriverEvent.noPipe dt :: rest =>
    if now + dt < deadline then processLoop deadline (now + dt + 100) rest
    else some (RcodeServerFailure, some DnsError.noPipeAvailable)
  | now, DriverEvent.pipeResult dt r sinkErr :: rest =>
    match r with
    | Except.ok _ =>
      match sinkErr with
      | some e => some (RcodeServerFailure, some e)
      | none => some (RcodeSuccess, none)
    | Except.error e =>
      if e = DnsError.writeNotReady then processLoop deadline (now + dt) rest
      else some (RcodeServerFailure, some e)

/-- `func (pd *PipeDriverImpl) process(msg *dns.Msg, w dns.ResponseWriter)`:
establishes the deadline `entry + 500` ms at call entry and runs the
admission loop from time `entry`. -/
def PipeDriverImpl.process (entry : Nat) (events : List DriverEvent) :
    Option (Nat × Option DnsError) :=
  processLoop (entry + 500) entry events

theorem processLoop_rcode (deadline : Nat) (events : List DriverEvent) :
    ∀ now rc e, processLoop deadline now events = some (rc, e) →
      (rc = RcodeSuccess ∧ e = none) ∨ (rc = RcodeServerFailure ∧ e ≠ none) := by
  induction events with
  | nil =>
    intro now rc e h
    simp [processLoop] at h
  | cons hd tl ih =>
    intro now rc e h
    cases hd with
    | noPipe dt =>
      simp only [processLoop] at h
      by_cases hlt : now + dt < deadline
      · rw [if_pos hlt] at h
        exact ih (now + dt + 100) rc e h
      · rw [if_neg hlt] at h
        cases h
        exact Or.inr ⟨rfl, by simp⟩
    | pipeResult dt r sinkErr =>
      cases r with
      | ok resp =>
        cases sinkErr with
        | some e' =>
          simp only [processLoop] at h
          cases h
          exact Or.inr ⟨rfl, by simp⟩
        | none =>
          simp only [processLoop] at h
          cases h
          exact Or.inl ⟨rfl, rfl⟩
      | error e' =>
        simp only [processLoop] at h
        by_cases he : e' = DnsError.writeNotReady
        · rw [if_pos he] at h
          exact ih (now + dt) rc e h
        · rw [if_neg he] at h
          cases h
          exact Or.inr ⟨rfl, by simp⟩

/-- C3: the admission loop retries only on `writeNotReady`; any other
pipe error is terminal with `(ServerFailure, err)`; a response is
written to the response sink, giving `(Success, nil)` on a successful
write and `(ServerFailure, err)` when the write fails; and every result
the loop returns pairs `Success` with a nil error and `ServerFailure`
with a non-nil error. -/
theorem pipedriver_process_error_handling (d now dt : Nat)
    (rest : List DriverEvent) (sk : Option DnsError) :
    (∀ e : DnsError, e ≠ DnsError.writeNotReady →
      processLoop d now (DriverEvent.pipeResult dt (Except.error e) sk :: rest) =
        some (RcodeServerFailure, some e)) ∧
    (∀ resp : Msg,
      processLoop d now (DriverEvent.pipeResult dt (Except.ok resp) none :: rest) =
        some (RcodeSuccess, none)) ∧
    (∀ resp : Msg, ∀ e : DnsError,
      processLoop d now (DriverEvent.pipeResult dt (Except.ok resp) (some e) :: rest) =
        some (RcodeServerFailure, some e)) ∧
    (processLoop d now
        (DriverEvent.pipeResult dt (Except.error DnsError.writeNotReady) sk :: rest) =
      processLoop d (now + dt) rest) ∧
    (∀ events : List DriverEvent, ∀ rc : Nat, ∀ e : Option DnsError,
      processLoop d now events = some (rc, e) →
      (rc = RcodeSuccess ∧ e = none) ∨ (rc = RcodeServerFailure ∧ e ≠ none)) := by
  refine ⟨?_, ?_, ?_, ?_, ?_⟩
  · intro e he
    simp only [processLoop]
    rw [if_neg he]
  · intro resp
    rfl
  · intro resp e
    rfl
  · simp [processLoop]
  · intro events rc e h
    exact processLoop_rcode d events now rc e h

/-- Witness for `pipedriver_process_error_handling`: a request timeout
is terminal with `(ServerFailure, requestTimeout)`. -/
theorem pipedriver_process_error_handling_witness :
    processLoop 500 0
      (DriverEvent.pipeResult 7 (Except.error DnsError.requestTimeout) none :: []) =
      some (RcodeServerFailure, some DnsError.requestTimeout) :=
  (pipedriver_process_error_handling 500 0 7 [] none).1
    DnsError.requestTimeout (by decide)

/-- C5: `PipeDriverImpl.process` fixes its deadline at 500 ms past call
entry; an iteration that selects no pipe retries after a 100 ms sleep
when the deadline has not yet passed at the check, and returns
`(ServerFailure, "no pipe available")` otherwise. -/
theorem pipedriver_process_deadline (entry : Nat) :
    (∀ events : List DriverEvent,
      PipeDriverImpl.process entry events = processLoop (entry + 500) entry events) ∧
    (∀ now dt : Nat, ∀ rest : List DriverEvent,
      now + dt < entry + 500 →
        processLoop (entry + 500) now (DriverEvent.noPipe dt :: rest) =
          processLoop (entry + 500) (now + dt + 100) rest) ∧
    (∀ now dt : Nat, ∀ rest : List DriverEvent,
      entry + 500 ≤ now + dt →
        processLoop (entry + 500) now (DriverEvent.noPipe dt :: rest) =
          some (RcodeServerFailure, some DnsError.noPipeAvailable)) := by
  refine ⟨fun _ => rfl, ?_, ?_⟩
  · intro now dt rest hlt
    simp only [processLoop]
    rw [if_pos hlt]
  · intro now dt rest hge
    simp only [processLoop]
    rw [if_neg (by omega)]

/-- Witness for `pipedriver_process_deadline`: with the deadline passed
(600 ms elapsed against a 500 ms budget) the loop gives up. -/
theorem pipedriver_process_deadline_witness :
    processLoop (0 + 500) 0 (DriverEvent.noPipe 600 :: []) =
      some (RcodeServerFailure, some DnsError.noPipeAvailable) :=
  (pipedriver_process_deadline 0).2.2 0 600 [] (by decide)
